import Mathlib

/-!
Verification of the per-tenant session lifecycle manager of the
multi-tenant WhatsApp sender gateway (src/server.js, base variant, and
src/unnamed/part_003, media variant).

The embedding models the per-tenant session state record
`{ client, ready, lastQR, lastError, idleTimer, initializing, busy }`,
the idle reaper, the initialization retry loop, the readiness waiter,
and the send / delete route handlers, as pure Lean functions; the
registry and the on-disk authentication / media directories are an
explicit `World` value threaded through the handlers.
-/

namespace Gateway

/-- Kind of pending idle timer: the short busy re-check scheduled by
`setIdleReaper` while `busy`, or the full idle-teardown timer. -/
inductive TimerKind where
  | recheck
  | reap
deriving DecidableEq, Repr

/-- A pending timer: its kind and its delay in milliseconds. -/
structure Timer where
  kind : TimerKind
  ms : Nat
deriving DecidableEq, Repr

/-- How a stored initialization promise settles once awaited:
resolution, or rejection with the thrown error's message. -/
inductive PromiseState where
  | settledOk
  | settledErr (msg : String)
deriving DecidableEq, Repr

/-- Per-tenant session state, mirroring the record created by
`getOrCreateState` in src/server.js:
`{ client: null, ready: false, lastQR: null, lastError: null,
   idleTimer: null, initializing: null, busy: false }`.
The `client` handle is modelled by its presence (`Bool`); the
`initializing` field is the promise slot: absent (`none`), or holding
a promise together with how that promise settles when awaited. -/
structure SessState where
  client : Bool
  ready : Bool
  lastQR : Option String
  lastError : Option String
  idleTimer : Option Timer
  initializing : Option PromiseState
  busy : Bool
deriving DecidableEq, Repr

/-- The zero-valued state installed by `getOrCreateState`. -/
def initState : SessState :=
  { client := false, ready := false, lastQR := none, lastError := none,
    idleTimer := none, initializing := none, busy := false }

/-- Kind of the timer currently pending for a state, if any. -/
def timerKind (s : SessState) : Option TimerKind :=
  s.idleTimer.map Timer.kind

/-- `setIdleReaper` (src/server.js:230-265): cancel any existing timer;
skip reaping entirely when `IDLE_MS` is falsy or below 10000; while
`busy` schedule only a 1000ms re-check; otherwise arm the full
`IDLE_MS` teardown timer. -/
def setIdleReaper (idleMs : Nat) (s : SessState) : SessState :=
  let s := { s with idleTimer := none }
  if idleMs < 10000 then s
  else if s.busy then { s with idleTimer := some ⟨TimerKind.recheck, 1000⟩ }
  else { s with idleTimer := some ⟨TimerKind.reap, idleMs⟩ }

/-- `stopClientKeepAuth` (src/server.js:344-361), effect on the session
state: cancel the idle timer, destroy the client, and null out
`client`, `ready`, `lastQR`, `lastError`.  `busy` and `initializing`
are untouched, and no filesystem operation is performed. -/
def stopClientKeepAuthState (s : SessState) : SessState :=
  { s with idleTimer := none, client := false, ready := false,
           lastQR := none, lastError := none }

/-- Body of the idle-teardown timer (src/server.js:248-264): stop the
client (keeping auth) when present, then mark not ready, clear the
challenge, set `lastError` to the marker `idle_destroyed`, and null the
client handle and the timer. -/
def idleReapFire (s : SessState) : SessState :=
  let s1 := if s.client then stopClientKeepAuthState s else s
  { s1 with ready := false, lastQR := none,
            lastError := some "idle_destroyed", client := false,
            idleTimer := none }

/-- `client.on('qr', ...)` handler (src/server.js:293-298): record the
challenge, mark not ready, clear `lastError`, rearm the reaper. -/
def onQr (idleMs : Nat) (q : String) (s : SessState) : SessState :=
  setIdleReaper idleMs
    { s with lastQR := some q, ready := false, lastError := none }

/-- `client.on('ready', ...)` handler (src/server.js:300-307): mark
ready, clear the challenge and `lastError`, rearm the reaper. -/
def onReady (idleMs : Nat) (s : SessState) : SessState :=
  setIdleReaper idleMs
    { s with ready := true, lastQR := none, lastError := none }

/-- `client.on('auth_failure', ...)` handler (src/server.js:311-315). -/
def onAuthFailure (idleMs : Nat) (msg : String) (s : SessState) : SessState :=
  setIdleReaper idleMs
    { s with ready := false, lastError := some ("auth_failure: " ++ msg) }

/-- `client.on('disconnected', ...)` handler (src/server.js:317-323). -/
def onDisconnected (idleMs : Nat) (reason : String) (s : SessState) : SessState :=
  setIdleReaper idleMs
    { s with ready := false, lastError := some ("disconnected: " ++ reason),
             lastQR := none }

/-- Invariant I2 of the spec: `ready == true` implies the pending
challenge `lastQR` is null. -/
def I2 (s : SessState) : Prop := s.ready = true → s.lastQR = none

@[simp] theorem setIdleReaper_ready (idleMs : Nat) (s : SessState) :
    (setIdleReaper idleMs s).ready = s.ready := by
  unfold setIdleReaper; dsimp only; split <;> [skip; split] <;> rfl

@[simp] theorem setIdleReaper_lastQR (idleMs : Nat) (s : SessState) :
    (setIdleReaper idleMs s).lastQR = s.lastQR := by
  unfold setIdleReaper; dsimp only; split <;> [skip; split] <;> rfl

@[simp] theorem setIdleReaper_busy (idleMs : Nat) (s : SessState) :
    (setIdleReaper idleMs s).busy = s.busy := by
  unfold setIdleReaper; dsimp only; split <;> [skip; split] <;> rfl

@[simp] theorem setIdleReaper_client (idleMs : Nat) (s : SessState) :
    (setIdleReaper idleMs s).client = s.client := by
  unfold setIdleReaper; dsimp only; split <;> [skip; split] <;> rfl

@[simp] theorem setIdleReaper_lastError (idleMs : Nat) (s : SessState) :
    (setIdleReaper idleMs s).lastError = s.lastError := by
  unfold setIdleReaper; dsimp only; split <;> [skip; split] <;> rfl

@[simp] theorem setIdleReaper_initializing (idleMs : Nat) (s : SessState) :
    (setIdleReaper idleMs s).initializing = s.initializing := by
  unfold setIdleReaper; dsimp only; split <;> [skip; split] <;> rfl

end Gateway

namespace Gateway

/-- C2: for every tenant session state, invariant I2
(`ready == true ⇒ lastQR == null`) holds after each of the event
handlers (`qr`, `ready`, `auth_failure`, `disconnected`) and after each
of the teardown operations (idle-timer firing, `stopClientKeepAuth`). -/
theorem i2_preserved_by_handlers (idleMs : Nat) (s : SessState)
    (q msg reason : String) :
    I2 (onQr idleMs q s) ∧ I2 (onReady idleMs s) ∧
    I2 (onAuthFailure idleMs msg s) ∧ I2 (onDisconnected idleMs reason s) ∧
    I2 (idleReapFire s) ∧ I2 (stopClientKeepAuthState s) := by
  refine ⟨?_, ?_, ?_, ?_, ?_, ?_⟩ <;> intro h <;>
    simp_all [I2, onQr, onReady, onAuthFailure, onDisconnected,
      idleReapFire, stopClientKeepAuthState]

/-- Witness for C2: after the `ready` event fires on the fresh state,
the state is ready and the pending challenge is indeed null. -/
theorem i2_preserved_by_handlers_witness :
    (onReady 30000 initState).ready = true ∧
    (onReady 30000 initState).lastQR = none :=
  ⟨by decide, (i2_preserved_by_handlers 30000 initState "q" "m" "r").2.1 (by decide)⟩

end Gateway

namespace Gateway

/-! ### Registry and on-disk state -/

/-- World state threaded through route handlers: the session registry
(`sessions` map of src/server.js), the per-tenant on-disk
authentication directories (under `BASE_AUTH_DIR`) and retained media
directories (under `BASE_MEDIA_DIR`, media variant), each keyed by
tenant id. -/
structure World where
  sessions : String → Option SessState
  authDirs : List String
  mediaDirs : List String

/-- `sessions.get(id)`. -/
def lookupSess (w : World) (id : String) : Option SessState := w.sessions id

/-- In-place mutation of a tenant's state record. -/
def updateSess (w : World) (id : String) (s : SessState) : World :=
  { w with sessions := fun x => if x = id then some s else w.sessions x }

/-- `sessions.delete(id)`. -/
def removeSess (w : World) (id : String) : World :=
  { w with sessions := fun x => if x = id then none else w.sessions x }

/-- `stopClientKeepAuth` (src/server.js:344-361) at world level: a
no-op for an unknown tenant, otherwise updates the entry in place.  It
performs no filesystem operation, so both directory lists ride along
unchanged. -/
def stopClientKeepAuthW (w : World) (id : String) : World :=
  match lookupSess w id with
  | none => w
  | some s => updateSess w id (stopClientKeepAuthState s)

/-- The idle-teardown timer body (src/server.js:248-264) at world
level: it calls `stopClientKeepAuth` and then overwrites the state
fields; no filesystem operation touches the auth directory. -/
def idleReapW (w : World) (id : String) : World :=
  match lookupSess w id with
  | none => w
  | some s => updateSess w id (idleReapFire s)

/-- `destroySession` (src/server.js:366-374): cancel the timer, destroy
the client, prune Chromium cache subdirectories inside the auth
directory (the auth data itself is kept), and remove the registry
entry. -/
def destroySessionW (w : World) (id : String) : World := removeSess w id

/-- `fs.rm(dir, {recursive, force})` on the per-tenant directory. -/
def removeDir (dirs : List String) (id : String) : List String :=
  dirs.filter (fun d => d != id)

/-- The tail of the send route (src/server.js:708-714): when
`IDLE_MS === 0`, immediately stop the client keeping auth after a
successful send; otherwise nothing. -/
def afterSendTeardown (idleMs : Nat) (w : World) (id : String) : World :=
  if idleMs = 0 then stopClientKeepAuthW w id else w

/-- A sample authenticated, idle-armed session state. -/
def sampleReadyState : SessState :=
  { client := true, ready := true, lastQR := none, lastError := none,
    idleTimer := some ⟨TimerKind.reap, 30000⟩, initializing := none,
    busy := false }

/-- A sample world with one authenticated tenant `t1`. -/
def sampleWorld : World :=
  { sessions := fun x => if x = "t1" then some sampleReadyState else none,
    authDirs := ["t1"], mediaDirs := ["t1"] }

end Gateway

namespace Gateway

/-- C6: when the idle timer fires for a tenant that is not busy, the
resulting state has a null client handle, `ready = false`, the pending
challenge cleared, and `lastError` equal to the marker
`idle_destroyed`; the on-disk authentication state is untouched. -/
theorem idle_teardown_result (w : World) (id : String) (s : SessState)
    (hs : lookupSess w id = some s) (hb : s.busy = false) :
    lookupSess (idleReapW w id) id = some (idleReapFire s) ∧
    (idleReapFire s).client = false ∧
    (idleReapFire s).ready = false ∧
    (idleReapFire s).lastQR = none ∧
    (idleReapFire s).lastError = some "idle_destroyed" ∧
    (idleReapW w id).authDirs = w.authDirs := by
  unfold idleReapW
  rw [hs]
  refine ⟨?_, ?_, ?_, ?_, ?_, rfl⟩
  · simp [lookupSess, updateSess]
  all_goals unfold idleReapFire; split <;> rfl

/-- Witness for C6: teardown of the sample tenant `t1`. -/
theorem idle_teardown_result_witness :
    lookupSess (idleReapW sampleWorld "t1") "t1" =
      some (idleReapFire sampleReadyState) ∧
    (idleReapFire sampleReadyState).lastError = some "idle_destroyed" :=
  have h := idle_teardown_result sampleWorld "t1" sampleReadyState
    (by rfl) (by rfl)
  ⟨h.1, h.2.2.2.2.1⟩

/-- C10: `stopClientKeepAuth` on an existing tenant nulls `client`,
`ready`, `lastQR`, `idleTimer` and `lastError`, keeps `busy` and
`initializing`, keeps the registry entry (and all other entries) and
touches no on-disk state; the immediate-teardown path after a send
under `IDLE_MS == 0` therefore leaves `lastError` null rather than
the `idle_destroyed` marker. -/
theorem stopClientKeepAuth_frame (w : World) (id : String) (s : SessState)
    (hs : lookupSess w id = some s) :
    lookupSess (stopClientKeepAuthW w id) id =
      some { s with client := false, ready := false, lastQR := none,
                    idleTimer := none, lastError := none } ∧
    (stopClientKeepAuthState s).busy = s.busy ∧
    (stopClientKeepAuthState s).initializing = s.initializing ∧
    (∀ other, other ≠ id →
      lookupSess (stopClientKeepAuthW w id) other = lookupSess w other) ∧
    (stopClientKeepAuthW w id).authDirs = w.authDirs ∧
    (stopClientKeepAuthW w id).mediaDirs = w.mediaDirs ∧
    lookupSess (afterSendTeardown 0 w id) id = some (stopClientKeepAuthState s) ∧
    (stopClientKeepAuthState s).lastError ≠ some "idle_destroyed" := by
  unfold afterSendTeardown stopClientKeepAuthW
  rw [hs]
  refine ⟨?_, rfl, rfl, ?_, rfl, rfl, ?_, ?_⟩
  · simp [lookupSess, updateSess, stopClientKeepAuthState]
  · intro other hne
    simp [lookupSess, updateSess, hne]
  · simp [lookupSess, updateSess, hs]
  · simp [stopClientKeepAuthState]

/-- Witness for C10: stopping the sample tenant `t1` keeps its auth
directory and leaves `lastError` null. -/
theorem stopClientKeepAuth_frame_witness :
    (stopClientKeepAuthW sampleWorld "t1").authDirs = sampleWorld.authDirs ∧
    (stopClientKeepAuthState sampleReadyState).lastError ≠ some "idle_destroyed" :=
  have h := stopClientKeepAuth_frame sampleWorld "t1" sampleReadyState (by rfl)
  ⟨h.2.2.2.2.1, h.2.2.2.2.2.2.2⟩

end Gateway

namespace Gateway

/-! ### Recipient normalization (send route, src/server.js:698-699) -/

/-- `String(to).replace(/\D/g, '')`: delete every non-digit character. -/
def digitsOnly (s : String) : String := ⟨s.data.filter Char.isDigit⟩

/-- JavaScript `s.includes(sub)`: substring containment. -/
def jsIncludes (s sub : String) : Bool := decide (sub.data <:+: s.data)

/-- `const chatId = phone.includes('@c.us') ? phone : phone + '@c.us'`
with `phone` the digit-stripped recipient. -/
def chatIdOf (toNum : String) : String :=
  let phone := digitsOnly toNum
  if jsIncludes phone "@c.us" then phone else phone ++ "@c.us"

/-- C8: the normalized chat identifier is the digit string of the
recipient with the canonical user-suffix `@c.us` appended exactly when
the digit string does not already carry it; since a digit string can
never contain `@c.us`, the suffix is always appended, and in
particular "9715551234" normalizes to "9715551234@c.us". -/
theorem chatId_normalization (toNum : String) :
    jsIncludes (digitsOnly toNum) "@c.us" = false ∧
    chatIdOf toNum = digitsOnly toNum ++ "@c.us" ∧
    chatIdOf "9715551234" = "9715551234@c.us" := by
  have hfalse : jsIncludes (digitsOnly toNum) "@c.us" = false := by
    rw [jsIncludes, decide_eq_false_iff_not]
    intro hinf
    have hat : '@' ∈ (digitsOnly toNum).data := hinf.subset (by simp)
    have : Char.isDigit '@' = true :=
      (List.mem_filter.mp hat).2
    exact absurd this (by decide)
  refine ⟨hfalse, ?_, by decide⟩
  unfold chatIdOf
  simp only [hfalse, Bool.false_eq_true, if_false]

end Gateway

namespace Gateway

/-! ### Tenant-id validation and auth-path resolution
(src/server.js:47-58, src/unnamed/part_003:56-74) -/

/-- One character of the allow-list pattern `^[a-zA-Z0-9_-]+$`. -/
def isAllowedChar (c : Char) : Bool :=
  c.isAlpha || c.isDigit || c == '_' || c == '-'

/-- `isValidSessionId`: the id matches `^[a-zA-Z0-9_-]+$`. -/
def isValidSessionId (id : String) : Bool :=
  !id.data.isEmpty && id.data.all isAllowedChar

/-- Split a character list at each `/` (as POSIX path resolution
does); `cur` is the reversed current segment. -/
def splitSegsAux : List Char → List Char → List (List Char)
  | [], cur => [cur.reverse]
  | c :: cs, cur =>
    if c = '/' then cur.reverse :: splitSegsAux cs []
    else splitSegsAux cs (c :: cur)

/-- Segments of a path string. -/
def splitSegs (l : List Char) : List (List Char) := splitSegsAux l []

/-- One step of POSIX normalization: drop empty and `.` segments, let
`..` pop the previous segment (at the root it is dropped). -/
def normStep (acc : List (List Char)) (seg : List Char) : List (List Char) :=
  if seg = [] then acc
  else if seg = ['.'] then acc
  else if seg = ['.', '.'] then acc.dropLast
  else acc ++ [seg]

/-- Normalize a segment list. -/
def normSegs (segs : List (List Char)) : List (List Char) :=
  segs.foldl normStep []

/-- Join segments with `/`. -/
def joinSegs : List (List Char) → List Char
  | [] => []
  | [s] => s
  | s :: t :: rest => s ++ '/' :: joinSegs (t :: rest)

/-- Render an absolute path from normalized segments. -/
def joinAbs (segs : List (List Char)) : List Char := '/' :: joinSegs segs

/-- Node `path.resolve(base, rel)` for an absolute, already-resolved
`base`: if `rel` is absolute it wins, otherwise the two are joined;
the result is normalized. -/
def resolvePath (base rel : String) : String :=
  let segs :=
    if rel.data.head? = some '/' then splitSegs rel.data
    else splitSegs base.data ++ splitSegs rel.data
  ⟨joinAbs (normSegs segs)⟩

/-- JavaScript `s.startsWith(pre)`. -/
def strStartsWith (s pre : String) : Bool := decide (pre.data <+: s.data)

/-- `getAuthPath` (src/server.js:52-58): resolve the tenant id against
`BASE_AUTH_DIR` and reject the result unless it starts with the base
directory string. (`getMediaPath` in the media variant is the same
function over `BASE_MEDIA_DIR`.) -/
def getAuthPath (base id : String) : Except String String :=
  let fullPath := resolvePath base id
  if strStartsWith fullPath base then Except.ok fullPath
  else Except.error "Invalid session path"

/-- Path `p` genuinely lies under directory `base`: it is `base`
itself or extends it past a separator. -/
def liesUnder (base p : String) : Prop :=
  p = base ∨ (base.data ++ ['/']) <+: p.data

/-- The base directory is a normalized absolute path other than the
root, as `path.resolve(BASE_AUTH_DIR)` guarantees. -/
def isNormalBase (base : String) : Prop :=
  normSegs (splitSegs base.data) ≠ [] ∧
  base.data = joinAbs (normSegs (splitSegs base.data))

theorem splitSegsAux_no_slash (l cur : List Char)
    (h : ∀ c ∈ l, c ≠ '/') : splitSegsAux l cur = [cur.reverse ++ l] := by
  induction l generalizing cur with
  | nil => simp [splitSegsAux]
  | cons c cs ih =>
    have hc : c ≠ '/' := h c (List.mem_cons_self c cs)
    rw [splitSegsAux, if_neg hc, ih _ (fun x hx => h x (List.mem_cons_of_mem c hx))]
    simp

theorem splitSegs_no_slash (l : List Char) (h : ∀ c ∈ l, c ≠ '/') :
    splitSegs l = [l] := by
  simpa using splitSegsAux_no_slash l [] h

theorem normSegs_append_plain (xs : List (List Char)) (seg : List Char)
    (h1 : seg ≠ []) (h2 : seg ≠ ['.']) (h3 : seg ≠ ['.', '.']) :
    normSegs (xs ++ [seg]) = normSegs xs ++ [seg] := by
  unfold normSegs
  rw [List.foldl_append]
  simp [normStep, h1, h2, h3]

theorem joinSegs_append (xs : List (List Char)) (y : List Char)
    (hxs : xs ≠ []) : joinSegs (xs ++ [y]) = joinSegs xs ++ '/' :: y := by
  induction xs with
  | nil => exact absurd rfl hxs
  | cons a xs ih =>
    cases xs with
    | nil => simp [joinSegs]
    | cons b xs =>
      have hih := ih (List.cons_ne_nil b xs)
      simp only [List.cons_append] at hih ⊢
      rw [joinSegs, hih, joinSegs]
      simp

theorem allowedChar_ne_slash (c : Char) (h : isAllowedChar c = true) :
    c ≠ '/' := by
  intro he; rw [he] at h; exact absurd h (by decide)

theorem allowedChar_ne_dot (c : Char) (h : isAllowedChar c = true) :
    c ≠ '.' := by
  intro he; rw [he] at h; exact absurd h (by decide)

end Gateway

namespace Gateway

/-- C9 (amended): `getAuthPath` either returns a path that has the base
directory as a string prefix or throws `Invalid session path`; and for
every id accepted by the allow-list `^[a-zA-Z0-9_-]+$`, the resolved
path is exactly `base + "/" + id`, the containment check passes, and
the result genuinely lies under the base directory. -/
theorem getAuthPath_allowlist_safe :
    (∀ base id p, getAuthPath base id = Except.ok p →
      base.data <+: p.data) ∧
    (∀ base id, isNormalBase base → isValidSessionId id = true →
      getAuthPath base id = Except.ok ⟨base.data ++ '/' :: id.data⟩ ∧
      liesUnder base ⟨base.data ++ '/' :: id.data⟩) := by
  constructor
  · intro base id p h
    unfold getAuthPath at h
    dsimp only at h
    split at h
    · next hcond =>
      cases h
      exact of_decide_eq_true hcond
    · cases h
  · intro base id hbase hid
    obtain ⟨hnb, hrepr⟩ := hbase
    have hid2 := hid
    unfold isValidSessionId at hid2
    rw [Bool.and_eq_true] at hid2
    obtain ⟨hne0, hall0⟩ := hid2
    have hne : id.data ≠ [] := by
      intro h; rw [h] at hne0; exact absurd hne0 (by decide)
    have hall : ∀ c ∈ id.data, isAllowedChar c = true :=
      List.all_eq_true.mp hall0
    have hnoslash : ∀ c ∈ id.data, c ≠ '/' :=
      fun c hc => allowedChar_ne_slash c (hall c hc)
    have hnotdot1 : id.data ≠ ['.'] := by
      intro h
      have : isAllowedChar '.' = true := hall '.' (by rw [h]; simp)
      exact absurd this (by decide)
    have hnotdot2 : id.data ≠ ['.', '.'] := by
      intro h
      have : isAllowedChar '.' = true := hall '.' (by rw [h]; simp)
      exact absurd this (by decide)
    have hhead : id.data.head? ≠ some '/' := by
      cases hd : id.data with
      | nil => simp
      | cons c cs =>
        simp only [List.head?]
        intro h
        have hc : c = '/' := by injection h
        exact hnoslash c (by rw [hd]; exact List.mem_cons_self c cs) hc
    have hresolve : resolvePath base id = ⟨base.data ++ '/' :: id.data⟩ := by
      unfold resolvePath
      rw [if_neg hhead, splitSegs_no_slash id.data hnoslash]
      dsimp only
      rw [normSegs_append_plain _ _ hne hnotdot1 hnotdot2,
        joinAbs, joinSegs_append _ _ hnb]
      have hb2 : base.data = '/' :: joinSegs (normSegs (splitSegs base.data)) := hrepr
      conv_rhs => rw [hb2]
      rfl
    have hpre : base.data <+: base.data ++ '/' :: id.data :=
      List.prefix_append base.data ('/' :: id.data)
    constructor
    · unfold getAuthPath
      dsimp only
      rw [hresolve]
      rw [strStartsWith, if_pos (decide_eq_true hpre)]
    · right
      have : base.data ++ '/' :: id.data = (base.data ++ ['/']) ++ id.data := by
        simp
      rw [this]
      exact List.prefix_append _ _

/-- Counterexample for C9 as stated: with base `/data/auth`, the id
`../auth2` resolves to the sibling directory `/data/auth2`, which
passes the string-prefix check (so `getAuthPath` returns it rather
than throwing) yet does not lie under the base directory. -/
theorem getAuthPath_escape_cex :
    getAuthPath "/data/auth" "../auth2" = Except.ok "/data/auth2" ∧
    ¬ liesUnder "/data/auth" "/data/auth2" := by
  constructor
  · rfl
  · unfold liesUnder
    decide

/-- Witness for C9 (amended): the allow-listed id `tenant_1` resolves
to a path under the base. -/
theorem getAuthPath_allowlist_safe_witness :
    getAuthPath "/data/auth" "tenant_1" = Except.ok "/data/auth/tenant_1" ∧
    liesUnder "/data/auth" "/data/auth/tenant_1" := by
  have h := getAuthPath_allowlist_safe.2 "/data/auth" "tenant_1"
    (by constructor <;> decide) (by decide)
  have hs : (⟨("/data/auth").data ++ '/' :: ("tenant_1").data⟩ : String) =
      "/data/auth/tenant_1" := by decide
  exact ⟨by rw [h.1, hs], by rw [← hs]; exact h.2⟩

end Gateway

namespace Gateway

/-! ### The busy flag versus the idle reaper (src/server.js:230-265,
687-689, 718-722) -/

/-- Synchronous prologue of the send route (src/server.js:688-689):
`state.busy = true; if (state.idleTimer) clearTimeout(...)`. -/
def sendBeginState (s : SessState) : SessState :=
  { s with busy := true, idleTimer := none }

/-- One lifecycle transition of a tenant's session state, as the
single-threaded scheduler interleaves them: the four client events,
a rearm of the reaper (status route, initialization success), the
send prologue and epilogue, the firing of a pending re-check or
teardown timer, and `stopClientKeepAuth`.  A timer can fire only
while it is pending. -/
inductive IdleStep (idleMs : Nat) : SessState → SessState → Prop where
  | qr (s : SessState) (q : String) : IdleStep idleMs s (onQr idleMs q s)
  | readyEv (s : SessState) : IdleStep idleMs s (onReady idleMs s)
  | authFailure (s : SessState) (m : String) :
      IdleStep idleMs s (onAuthFailure idleMs m s)
  | disconnected (s : SessState) (r : String) :
      IdleStep idleMs s (onDisconnected idleMs r s)
  | arm (s : SessState) : IdleStep idleMs s (setIdleReaper idleMs s)
  | sendBegin (s : SessState) : IdleStep idleMs s (sendBeginState s)
  | sendEnd (s : SessState) (h : s.busy = true) :
      IdleStep idleMs s (setIdleReaper idleMs { s with busy := false })
  | recheckFire (s : SessState) (h : timerKind s = some TimerKind.recheck) :
      IdleStep idleMs s (setIdleReaper idleMs s)
  | reapFire (s : SessState) (h : timerKind s = some TimerKind.reap) :
      IdleStep idleMs s (idleReapFire s)
  | stopKeepAuth (s : SessState) : IdleStep idleMs s (stopClientKeepAuthState s)

/-- States reachable from the zero-valued session state. -/
inductive ReachableIdle (idleMs : Nat) : SessState → Prop where
  | init : ReachableIdle idleMs initState
  | step {s t : SessState} : ReachableIdle idleMs s → IdleStep idleMs s t →
      ReachableIdle idleMs t

/-- While busy, the pending timer is never the teardown timer. -/
def BusySafe (s : SessState) : Prop :=
  s.busy = true → timerKind s ≠ some TimerKind.reap

theorem setIdleReaper_busySafe (idleMs : Nat) (s : SessState) :
    BusySafe (setIdleReaper idleMs s) := by
  intro hb
  rw [setIdleReaper_busy] at hb
  simp only [setIdleReaper, timerKind, hb]
  split <;> simp

theorem reachable_busySafe (idleMs : Nat) (s : SessState)
    (h : ReachableIdle idleMs s) : BusySafe s := by
  induction h with
  | init => intro hb; simp [initState] at hb
  | step _ hstep _ =>
    cases hstep with
    | qr q => exact setIdleReaper_busySafe idleMs _
    | readyEv => exact setIdleReaper_busySafe idleMs _
    | authFailure m => exact setIdleReaper_busySafe idleMs _
    | disconnected r => exact setIdleReaper_busySafe idleMs _
    | arm => exact setIdleReaper_busySafe idleMs _
    | sendBegin => intro _; simp [sendBeginState, timerKind]
    | sendEnd h => exact setIdleReaper_busySafe idleMs _
    | recheckFire h => exact setIdleReaper_busySafe idleMs _
    | reapFire h => intro _; simp [idleReapFire, timerKind]
    | stopKeepAuth => intro _; simp [stopClientKeepAuthState, timerKind]

/-- C5: in every reachable state with `busy = true` the pending timer
is never the teardown timer, so the idle-teardown body cannot execute
while busy; the send prologue sets busy and cancels the pending timer;
`setIdleReaper` called while busy schedules only the 1000ms re-check
instead of the full idle timeout; and as soon as busy clears, the
rearm schedules a fresh full idle timer. -/
theorem busy_prevents_idle_teardown (idleMs : Nat) (s : SessState) :
    (ReachableIdle idleMs s → s.busy = true →
      timerKind s ≠ some TimerKind.reap) ∧
    ((sendBeginState s).busy = true ∧ (sendBeginState s).idleTimer = none) ∧
    (10000 ≤ idleMs → s.busy = true →
      (setIdleReaper idleMs s).idleTimer = some ⟨TimerKind.recheck, 1000⟩) ∧
    (10000 ≤ idleMs →
      (setIdleReaper idleMs { s with busy := false }).idleTimer =
        some ⟨TimerKind.reap, idleMs⟩) := by
  refine ⟨fun hr => reachable_busySafe idleMs s hr, ⟨rfl, rfl⟩, ?_, ?_⟩
  · intro hge hb
    unfold setIdleReaper
    rw [if_neg (by omega)]
    simp [hb]
  · intro hge
    unfold setIdleReaper
    rw [if_neg (by omega)]
    simp

/-- Witness for C5: right after the send prologue on the fresh state,
the state is reachable and busy, no teardown timer is pending, and a
reaper call now would schedule only the 1000ms re-check. -/
theorem busy_prevents_idle_teardown_witness :
    timerKind (sendBeginState initState) ≠ some TimerKind.reap ∧
    (setIdleReaper 30000 (sendBeginState initState)).idleTimer =
      some ⟨TimerKind.recheck, 1000⟩ :=
  ⟨(busy_prevents_idle_teardown 30000 (sendBeginState initState)).1
      (ReachableIdle.step ReachableIdle.init (IdleStep.sendBegin initState))
      (by decide),
   (busy_prevents_idle_teardown 30000 (sendBeginState initState)).2.2.1
      (by decide) (by decide)⟩

end Gateway

namespace Gateway

/-! ### Readiness waiter and the send route (src/server.js:537-723,
src/unnamed/part_003:497-638) -/

/-- The first signal that settles the readiness wait: the `ready`
event (or the `CONNECTED` fast-path poll), a fresh `qr` event, an
`auth_failure`/`disconnected` event with its message, or the timeout. -/
inductive ReadyOutcome where
  | becameReady
  | freshQr
  | failed (msg : String)
  | timedOut
deriving DecidableEq, Repr

/-- `waitForReady` (src/server.js:537-621): reject at once without a
client or with a challenge pending; succeed at once when ready;
otherwise the outcome of the race of ready / qr / failure / timeout
decides. -/
def waitForReadyM (s : SessState) (out : ReadyOutcome) : Except String Unit :=
  if s.client = false then Except.error "Client is not initialized"
  else if s.lastQR.isSome then
    Except.error "Authentication required: scan the QR first"
  else if s.ready then Except.ok ()
  else
    match out with
    | ReadyOutcome.becameReady => Except.ok ()
    | ReadyOutcome.freshQr =>
        Except.error "Authentication required: scan the QR first"
    | ReadyOutcome.failed m => Except.error m
    | ReadyOutcome.timedOut =>
        Except.error "Timeout: Client did not become ready"

/-- Environment of one send request: how the readiness wait settles,
whether `waitForConnected` and (base variant) the WAPI-injection check
succeed within their timeouts, whether the recipient is registered
(media variant check), and the result of `sendMessage` itself. -/
structure SendEnv where
  readyOut : ReadyOutcome
  connected : Bool
  wapiInjected : Bool
  registered : Bool
  sendResult : Except String Unit

/-- Status and error body of the HTTP reply. -/
structure HttpReply where
  status : Nat
  errMsg : Option String
deriving DecidableEq, Repr

/-- The send route of the media variant
(src/unnamed/part_003:588-638): 400 on missing fields; every error
thrown by the ready/connected waits or by `sendMessage` is caught and
surfaced as 500 with the underlying message; an unregistered recipient
is answered 404 before sending. -/
def sendHandlerMedia (s : SessState) (toField msgField : Option String)
    (env : SendEnv) : HttpReply :=
  if toField.isNone || msgField.isNone then
    ⟨400, some "Missing to or message"⟩
  else
    match waitForReadyM s env.readyOut with
    | Except.error e => ⟨500, some e⟩
    | Except.ok _ =>
      if !env.connected then
        ⟨500, some "Timeout waiting for WhatsApp to connect"⟩
      else if !env.registered then
        ⟨404, some "Recipient is not on WhatsApp"⟩
      else
        match env.sendResult with
        | Except.error m => ⟨500, some m⟩
        | Except.ok _ => ⟨200, none⟩

/-- The send route of the base variant (src/server.js:660-723): same
shape, with the extra WAPI-injection wait and no registration check
(`getChatById`/`sendMessage` failures surface through `sendResult`). -/
def sendHandlerBase (s : SessState) (toField msgField : Option String)
    (env : SendEnv) : HttpReply :=
  if toField.isNone || msgField.isNone then
    ⟨400, some "Missing to or message"⟩
  else
    match waitForReadyM s env.readyOut with
    | Except.error e => ⟨500, some e⟩
    | Except.ok _ =>
      if !env.connected then
        ⟨500, some "Timeout waiting for WhatsApp to connect"⟩
      else if !env.wapiInjected then
        ⟨500, some "Timeout: WhatsApp API not injected"⟩
      else
        match env.sendResult with
        | Except.error m => ⟨500, some m⟩
        | Except.ok _ => ⟨200, none⟩

/-- A session with a pending challenge awaiting scan. -/
def qrPendingState : SessState :=
  { client := true, ready := false, lastQR := some "QRTOKEN",
    lastError := none, idleTimer := none, initializing := none,
    busy := true }

/-- A created but not yet ready session with no challenge. -/
def notReadyState : SessState :=
  { client := true, ready := false, lastQR := none, lastError := none,
    idleTimer := none, initializing := none, busy := true }

/-- A benign request environment. -/
def okEnv : SendEnv :=
  { readyOut := ReadyOutcome.becameReady, connected := true,
    wapiInjected := true, registered := true,
    sendResult := Except.ok () }

/-- Counterexample for C3 as stated: a pending challenge is surfaced
as 500 (not precondition-failed 412), and a readiness timeout is
surfaced as 500 (not service-unavailable 503). -/
theorem send_status_taxonomy_cex :
    sendHandlerMedia qrPendingState (some "9715551234") (some "hello") okEnv =
      ⟨500, some "Authentication required: scan the QR first"⟩ ∧
    (sendHandlerMedia qrPendingState (some "9715551234") (some "hello")
      okEnv).status ≠ 412 ∧
    sendHandlerMedia notReadyState (some "9715551234") (some "hello")
      { okEnv with readyOut := ReadyOutcome.timedOut } =
      ⟨500, some "Timeout: Client did not become ready"⟩ ∧
    (sendHandlerMedia notReadyState (some "9715551234") (some "hello")
      { okEnv with readyOut := ReadyOutcome.timedOut }).status ≠ 503 := by
  refine ⟨rfl, by decide, rfl, by decide⟩

/-- C3 (amended): with both fields present, the media-variant send
surfaces an unregistered recipient as 404 and every other failure —
pending challenge, readiness timeout, connect timeout, send exception —
as 500 carrying the underlying message; the base variant, which has no
registration check, surfaces every failure as 500. -/
theorem send_status_taxonomy (s : SessState) (toField msgField : Option String)
    (env : SendEnv) (hto : toField.isNone = false)
    (hmsg : msgField.isNone = false) :
    (∀ e, waitForReadyM s env.readyOut = Except.error e →
      sendHandlerMedia s toField msgField env = ⟨500, some e⟩ ∧
      sendHandlerBase s toField msgField env = ⟨500, some e⟩) ∧
    (waitForReadyM s env.readyOut = Except.ok () → env.connected = true →
      env.registered = false →
      sendHandlerMedia s toField msgField env =
        ⟨404, some "Recipient is not on WhatsApp"⟩) ∧
    (∀ m, waitForReadyM s env.readyOut = Except.ok () → env.connected = true →
      env.registered = true → env.sendResult = Except.error m →
      sendHandlerMedia s toField msgField env = ⟨500, some m⟩) := by
  refine ⟨?_, ?_, ?_⟩
  · intro e he
    constructor <;>
      simp [sendHandlerMedia, sendHandlerBase, hto, hmsg, he]
  · intro hok hconn hreg
    simp [sendHandlerMedia, hto, hmsg, hok, hconn, hreg]
  · intro m hok hconn hreg hsend
    simp [sendHandlerMedia, hto, hmsg, hok, hconn, hreg, hsend]

/-- Witness for C3 (amended): the challenge-pending request is
answered 500 in both variants, and an unregistered recipient is
answered 404 by the media variant. -/
theorem send_status_taxonomy_witness :
    sendHandlerMedia qrPendingState (some "9715551234") (some "hello") okEnv =
      ⟨500, some "Authentication required: scan the QR first"⟩ ∧
    sendHandlerMedia notReadyState (some "9715551234") (some "hello")
      { okEnv with registered := false } =
      ⟨404, some "Recipient is not on WhatsApp"⟩ :=
  ⟨((send_status_taxonomy qrPendingState (some "9715551234") (some "hello")
      okEnv rfl rfl).1 "Authentication required: scan the QR first" rfl).1,
   (send_status_taxonomy notReadyState (some "9715551234") (some "hello")
      { okEnv with registered := false } rfl rfl).2.1 rfl rfl rfl⟩

end Gateway

namespace Gateway

/-! ### DELETE /sessions/:id (src/server.js:757-782,
src/unnamed/part_003:826-856) -/

/-- Status line and body of the delete reply. -/
structure DeleteReply where
  status : Nat
  ok : Bool
  purged : Bool
deriving DecidableEq, Repr

/-- The delete route: validate the id, destroy the session, and — with
`purge` hardcoded to `true` (`const purge = true`), the caller's query
parameter being read by neither variant — erase the tenant's auth
directory (and, in the media variant, its media directory); reply
`ok` with the `purged` flag. -/
def deleteSessionHandler (purgeRequested : Bool) (w : World) (id : String) :
    DeleteReply × World :=
  if !isValidSessionId id then (⟨400, false, false⟩, w)
  else
    let purge := true
    let w1 := destroySessionW w id
    let w2 :=
      if purge then
        { w1 with authDirs := removeDir w1.authDirs id,
                  mediaDirs := removeDir w1.mediaDirs id }
      else w1
    (⟨200, true, purge⟩, w2)

/-- Counterexample for C4 as stated: a delete that does NOT request
purging still erases the tenant's on-disk auth (and media) state and
reports `purged: true`. -/
theorem delete_ignores_purge_param_cex :
    (deleteSessionHandler false sampleWorld "t1").1.purged = true ∧
    (deleteSessionHandler false sampleWorld "t1").2.authDirs = [] ∧
    (deleteSessionHandler false sampleWorld "t1").2.mediaDirs = [] ∧
    sampleWorld.authDirs = ["t1"] := by
  refine ⟨by decide, by decide, by decide, rfl⟩

/-- C4 (amended): for every valid id, DELETE always destroys the
resource, removes the registry entry, erases the on-disk auth state
and retained media, and reports `purged: true` — regardless of whether
the caller requested purging. -/
theorem delete_always_purges (purgeRequested : Bool) (w : World) (id : String)
    (hv : isValidSessionId id = true) :
    (deleteSessionHandler purgeRequested w id).1 = ⟨200, true, true⟩ ∧
    lookupSess (deleteSessionHandler purgeRequested w id).2 id = none ∧
    (deleteSessionHandler purgeRequested w id).2.authDirs =
      removeDir w.authDirs id ∧
    (deleteSessionHandler purgeRequested w id).2.mediaDirs =
      removeDir w.mediaDirs id := by
  unfold deleteSessionHandler
  simp [hv, destroySessionW, removeSess, lookupSess]

/-- Witness for C4 (amended): deleting `t1` from the sample world. -/
theorem delete_always_purges_witness :
    (deleteSessionHandler false sampleWorld "t1").1 = ⟨200, true, true⟩ ∧
    lookupSess (deleteSessionHandler false sampleWorld "t1").2 "t1" = none :=
  have h := delete_always_purges false sampleWorld "t1" (by decide)
  ⟨h.1, h.2.1⟩

end Gateway

namespace Gateway

/-! ### The initialization retry loop and `ensureInitialized`
(src/server.js:382-437, src/unnamed/part_003:368-416) -/

/-- Result of one run of the retry loop inside `ensureInitialized`:
the final session state, the settled outcome of the `initializing`
promise, the backoff delays that were awaited between attempts, and
how many attempts were made. -/
structure InitRun where
  state : SessState
  outcome : Except String Unit
  delays : List Nat
  attemptsMade : Nat

/-- The `while (attempt < maxRetries)` loop (src/server.js:401-433):
`remaining` counts the attempts still allowed, `attempt` those already
made; `outcomes n` is how `client.initialize()` settles on attempt `n`
(`none` is success, `some msg` a failure with that message).  On
success `lastError` is cleared and the reaper rearmed; on failure
`lastError` is set to the message, the half-started client is torn
down via `stopClientKeepAuth` — which nulls `lastError` again — and,
when attempts remain, a backoff of `1000 * attempt` ms is awaited.  On
exhaustion the loop throws the last error. -/
def initRetryAux (idleMs : Nat) (outcomes : Nat → Option String) :
    Nat → Nat → SessState → Option String → List Nat → InitRun
  | 0, attempt, s, lastErr, delays =>
    { state := s, outcome := Except.error (lastErr.getD "undefined"),
      delays := delays, attemptsMade := attempt }
  | remaining + 1, attempt, s, lastErr, delays =>
    let a := attempt + 1
    match outcomes a with
    | none =>
      { state := setIdleReaper idleMs { s with lastError := none },
        outcome := Except.ok (), delays := delays, attemptsMade := a }
    | some err =>
      let s1 := stopClientKeepAuthState
        { s with ready := false, lastError := some err }
      let delays1 := if remaining != 0 then delays ++ [1000 * a] else delays
      initRetryAux idleMs outcomes remaining a s1 (some err) delays1

/-- The retry loop entered with `maxRetries = 3` and `attempt = 0`. -/
def initRetryLoop (idleMs : Nat) (outcomes : Nat → Option String)
    (s : SessState) : InitRun :=
  initRetryAux idleMs outcomes 3 0 s none []

/-- `createClientInstance` (src/server.js:272-330), state effect: a
client is created and stored; the base variant leaves `lastError`
untouched (the clearing line is commented out). -/
def createClientStateBase (s : SessState) : SessState :=
  { s with client := true }

/-- `createClientInstance` of the media variant
(src/unnamed/part_003:271-331): also clears `lastError`. -/
def createClientStateMedia (s : SessState) : SessState :=
  { s with client := true, lastError := none }

/-- How the attempt stored in `initializing` settles, as kept in the
promise slot. -/
def promiseOf : Except String Unit → PromiseState
  | Except.ok _ => PromiseState.settledOk
  | Except.error e => PromiseState.settledErr e

/-- `ensureInitialized` of the base variant (src/server.js:382-437):
fast path when ready; when the `initializing` slot holds a promise,
`await s.initializing` (line 393) rethrows its rejection as-is, and
only when it resolved does line 394 settle from the current state
(`s.ready ? s : reject(s.lastError || 'Initialization failed')`);
otherwise create the client if missing, run the retry loop and
propagate its outcome.  The base variant has no `finally` clause:
`initializing` is never reset to null and keeps the settled promise. -/
def ensureInitializedBase (idleMs : Nat) (outcomes : Nat → Option String)
    (s : SessState) : SessState × Except String Unit :=
  if s.ready && s.client then (setIdleReaper idleMs s, Except.ok ())
  else
    match s.initializing with
    | some (PromiseState.settledErr e) => (s, Except.error e)
    | some PromiseState.settledOk =>
      (s, if s.ready then Except.ok ()
          else Except.error (s.lastError.getD "Initialization failed"))
    | none =>
      let s1 := if s.client then s else createClientStateBase s
      let r := initRetryLoop idleMs outcomes s1
      ({ r.state with initializing := some (promiseOf r.outcome) }, r.outcome)

/-- `ensureInitialized` of the media variant
(src/unnamed/part_003:368-416): same await-in-flight behaviour
(part_003:376-379), except the loop body first clears an
`idle_destroyed` marker and a `finally` clause resets `initializing`
to null once the attempt settles. -/
def ensureInitializedMedia (idleMs : Nat) (outcomes : Nat → Option String)
    (s : SessState) : SessState × Except String Unit :=
  if s.ready && s.client then (setIdleReaper idleMs s, Except.ok ())
  else
    match s.initializing with
    | some (PromiseState.settledErr e) => (s, Except.error e)
    | some PromiseState.settledOk =>
      (s, if s.ready then Except.ok ()
          else Except.error (s.lastError.getD "Initialization failed"))
    | none =>
      let s1 := if s.client then s else createClientStateMedia s
      let s2 := if s1.lastError = some "idle_destroyed" then
          { s1 with lastError := none } else s1
      let r := initRetryLoop idleMs outcomes s2
      ({ r.state with initializing := none }, r.outcome)

/-- A schedule on which `client.initialize()` fails on every attempt,
with a distinct message per attempt. -/
def alwaysFailing : Nat → Option String :=
  fun n => some (match n with | 1 => "boom1" | 2 => "boom2" | _ => "boom3")

/-- The run of the retry loop on a fresh client when every attempt
fails. -/
def exhaustedRun : InitRun :=
  initRetryLoop 30000 alwaysFailing { initState with client := true }

/-- C7: on a schedule where `initialize()` fails every time, the loop
makes exactly 3 attempts, awaits the linear backoffs 1000ms and 2000ms
between them, tears the half-started client down after each failure
(final `client = false`, `ready = false`, no challenge, no timer), and
propagates the third failure to the caller — but the state's
`lastError` ends `null`, because `stopClientKeepAuth` clears it right
after each failed attempt records it. -/
theorem initRetry_exhaustion_eval :
    exhaustedRun.attemptsMade = 3 ∧
    exhaustedRun.delays = [1000, 2000] ∧
    exhaustedRun.outcome = Except.error "boom3" ∧
    exhaustedRun.state.lastError = none ∧
    exhaustedRun.state.ready = false ∧
    exhaustedRun.state.client = false ∧
    exhaustedRun.state.lastQR = none ∧
    exhaustedRun.state.idleTimer = none := by
  refine ⟨rfl, rfl, rfl, rfl, rfl, rfl, rfl, rfl⟩

/-- C1: after a completed initialization attempt (failing on all
three tries, or succeeding), the base variant leaves the
`initializing` field still holding the settled promise — it is never
cleared back to null — while the media variant's `finally` clause
does clear it.  A later `ensureInitializedBase` call then awaits the
stale rejected promise and rethrows its original error (`boom3`)
without starting a fresh attempt: its outcomes schedule would succeed
immediately, yet the call rejects and leaves the state unchanged. -/
theorem ensureInitialized_stale_initializing :
    (ensureInitializedBase 30000 alwaysFailing initState).1.initializing =
      some (PromiseState.settledErr "boom3") ∧
    (ensureInitializedBase 30000 (fun _ => none) initState).1.initializing =
      some PromiseState.settledOk ∧
    (ensureInitializedMedia 30000 alwaysFailing initState).1.initializing =
      none ∧
    (ensureInitializedBase 30000 (fun _ => none)
      (ensureInitializedBase 30000 alwaysFailing initState).1).2 =
      Except.error "boom3" ∧
    (ensureInitializedBase 30000 (fun _ => none)
      (ensureInitializedBase 30000 alwaysFailing initState).1).1 =
      (ensureInitializedBase 30000 alwaysFailing initState).1 := by
  refine ⟨rfl, rfl, rfl, rfl, rfl⟩

end Gateway
